import Mathlib

/-!
Verification of the tool-call permission risk-assessment engine
(`scripts/examples/enhanced-permission-system.ts`, class `EnhancedPermissionSystem`).

The embedding translates the TypeScript source directly:
- JavaScript values reaching the analyzed fields are either strings or
  `undefined`; `JsVal` models that, and `Params` models the
  `Record<string, any>` parameter object restricted to those values.
- Platform effects consulted by the source (`fs.existsSync`, `new URL(...)`,
  `process.cwd()`, `process.env.USER`) are abstracted into a `SysEnv` record
  passed explicitly; the source's logic over their results is translated
  verbatim.
- A JavaScript `TypeError` (method call on `undefined`, invalid URL) is
  modelled by the `Except.error` branch of `analyzeToolRequest`.
- The interactive readline loop of `getUserPermission` is modelled by passing
  the list of operator input lines; an empty list at the prompt yields
  `EvalResult.blocked` (the read would block forever), and the `case 'i'`
  branch re-invokes the whole evaluation on the remaining inputs exactly as
  the source re-invokes `this.getUserPermission`.
-/

/-- The four risk levels of the source (`'LOW' | 'MEDIUM' | 'HIGH' | 'CRITICAL'`). -/
inductive RiskLevel where
  | LOW
  | MEDIUM
  | HIGH
  | CRITICAL
deriving DecidableEq, Repr

/-- Severity rank giving the total order LOW < MEDIUM < HIGH < CRITICAL. -/
def riskRank : RiskLevel → Nat
  | RiskLevel.LOW => 0
  | RiskLevel.MEDIUM => 1
  | RiskLevel.HIGH => 2
  | RiskLevel.CRITICAL => 3

/-- Maximum of two risk levels under the severity order. -/
def riskMax (a b : RiskLevel) : RiskLevel :=
  if riskRank a < riskRank b then b else a

/-- A JavaScript value reaching an analyzed parameter field: a string or
`undefined` (a field absent from the parameter object reads as `undefined`). -/
inductive JsVal where
  | str (s : String)
  | undef
deriving DecidableEq, Repr

/-- The `Record<string, any>` parameter object, restricted to the analyzed fields. -/
abbrev Params : Type := List (String × JsVal)

/-- Field access `parameters.k as string`: `some s` when the field holds the
string `s`, `none` when it is absent or `undefined`. -/
def getStr (parameters : Params) (k : String) : Option String :=
  match List.lookup k parameters with
  | some (JsVal.str s) => some s
  | _ => none

/-- JavaScript template-literal coercion: `undefined` renders as "undefined". -/
def showVal : Option String → String
  | some s => s
  | none => "undefined"

/-- Substring search on character lists (JavaScript `String.prototype.includes`
and regex-literal alternation both reduce to this for literal tokens). -/
def hasSubList (needle : List Char) : List Char → Bool
  | [] => needle.isEmpty
  | c :: rest => needle.isPrefixOf (c :: rest) || hasSubList needle rest

/-- `strContains hay needle` models `hay.includes(needle)`. -/
def strContains (hay needle : String) : Bool :=
  hasSubList needle.toList hay.toList

/-- JavaScript `String.prototype.toLowerCase` (character-wise lowering; the
source only distinguishes ASCII letters). -/
def jsToLower (s : String) : String :=
  String.mk (s.toList.map Char.toLower)

/-- JavaScript `String.prototype.trim`: strip leading and trailing whitespace. -/
def jsTrim (s : String) : String :=
  String.mk (((s.toList.dropWhile Char.isWhitespace).reverse.dropWhile Char.isWhitespace).reverse)

/-- `content.split(sep)` on character lists: split at every separator,
yielding one (possibly empty) piece per gap. -/
def splitOnChar (sep : Char) : List Char → List (List Char)
  | [] => [[]]
  | c :: rest =>
    if c = sep then [] :: splitOnChar sep rest
    else
      match splitOnChar sep rest with
      | h :: t => (c :: h) :: t
      | [] => [[c]]

/-- `content.split('\n')` of the source's preview logic. -/
def jsSplitNl (s : String) : List String :=
  (splitOnChar '\n' s.toList).map String.mk

/-- Whether any of the literal tokens occurs in `s` (a regex `/t1|t2|.../.test(s)`). -/
def anyTok (s : String) (toks : List String) : Bool :=
  toks.any (fun t => strContains s t)

/-- `/rm|sudo|chmod|chown|dd|mkfs|format/.test(command)` (source line `isDangerous`). -/
def isDangerousCmd (command : String) : Bool :=
  anyTok command ["rm", "sudo", "chmod", "chown", "dd", "mkfs", "format"]

/-- `/curl|wget|nc|ssh|scp/.test(command)` (source line `isNetworking`). -/
def isNetworkingCmd (command : String) : Bool :=
  anyTok command ["curl", "wget", "nc", "ssh", "scp"]

/-- `/apt|yum|brew|npm install|pip install/.test(command)` (source line `isInstall`). -/
def isInstallCmd (command : String) : Bool :=
  anyTok command ["apt", "yum", "brew", "npm install", "pip install"]

/-- `/password|secret|key|token|config|env/.test(readPath.toLowerCase())`
(source line `isSensitive`, case `'Read'`). -/
def isSensitivePath (lowered : String) : Bool :=
  anyTok lowered ["password", "secret", "key", "token", "config", "env"]

/-- `filePath.includes('/etc/') || filePath.includes('/usr/') || filePath.includes('/sys/')`
(source line `isSystemPath`, case `'Write'`). -/
def isSystemPath (filePath : String) : Bool :=
  strContains filePath "/etc/" || strContains filePath "/usr/" || strContains filePath "/sys/"

/-- Modelled from the spec: "the target path falls under a system-directory
prefix (e.g. `/etc/`, `/usr/`, `/sys/`)" — a path is under such a directory
when it starts with the directory prefix.  Stated for comparison with the
source's substring check `isSystemPath`. -/
def underSystemDir (filePath : String) : Bool :=
  List.isPrefixOf "/etc/".toList filePath.toList ||
  List.isPrefixOf "/usr/".toList filePath.toList ||
  List.isPrefixOf "/sys/".toList filePath.toList

/-- `path.dirname` for the common forward-slash paths the source feeds it
(the value only flows into display strings). -/
def dirname (p : String) : String :=
  let r := p.toList.reverse.dropWhile (fun c => c ≠ '/')
  match r with
  | [] => "."
  | _ :: rest => if rest.isEmpty then "/" else String.mk rest.reverse

/-- The platform facts the analyzer consults: `fs.existsSync`, WHATWG URL
parsing (`some hostname` on success, `none` when `new URL` would throw),
`process.cwd()`, and `process.env.USER`. -/
structure SysEnv where
  fsExists : String → Bool
  urlHost : String → Option String
  cwd : String
  userEnv : Option String

/-- `${process.env.USER || 'unknown'}`. -/
def userShow : Option String → String
  | some u => if u = "" then "unknown" else u
  | none => "unknown"

/-- The `DetailedToolInfo` interface of the source. -/
structure DetailedToolInfo where
  toolName : String
  parameters : Params
  description : String
  riskLevel : RiskLevel
  explanation : String
  impacts : List String
  recommendations : List String
deriving DecidableEq, Repr

/-- `parameters.path || 'current directory'` (case `'Grep'`; the empty string
is falsy in JavaScript). -/
def grepSearchPath : Option String → String
  | some s => if s = "" then "current directory" else s
  | none => "current directory"

/-- `EnhancedPermissionSystem.analyzeToolRequest`, translated case by case from
the source `switch (toolName)`.  `Except.error` marks the places where the
source would throw a `TypeError`: calling `.includes` / `.toLowerCase` on an
`undefined` path, or `new URL(url)` on input the URL parser rejects. -/
def analyzeToolRequest (env : SysEnv) (toolName : String) (parameters : Params) :
    Except String DetailedToolInfo :=
  let description := "Execute " ++ toolName ++ " tool"
  if toolName = "Write" then
    match getStr parameters "file_path" with
    | none => Except.error "TypeError: Cannot read properties of undefined (reading includes)"
    | some filePath =>
      let fileSize := match getStr parameters "content" with
        | some content => content.length
        | none => 0
      let isExistingFile := env.fsExists filePath
      let isSystem := isSystemPath filePath
      Except.ok
        { toolName := toolName
          parameters := parameters
          description := description
          riskLevel := if isSystem then RiskLevel.CRITICAL
            else if isExistingFile then RiskLevel.MEDIUM else RiskLevel.LOW
          explanation := "Create or modify file at: " ++ filePath
          impacts :=
            ["📁 Target: " ++ filePath,
             "📄 Content size: " ++ toString fileSize ++ " characters",
             if isExistingFile then "⚠️  Will OVERWRITE existing file"
               else "✨ Will create NEW file",
             "📂 Directory: " ++ dirname filePath] ++
            (if isSystem then ["🚨 WARNING: System directory detected!"] else [])
          recommendations :=
            ["Review the file path carefully",
             if isExistingFile then "Backup existing file if important"
               else "Ensure directory is correct",
             "Check content preview below"] ++
            (if isSystem then ["❌ AVOID: System files can break your system"] else []) }
  else if toolName = "Edit" ∨ toolName = "MultiEdit" then
    let editPath := showVal (getStr parameters "file_path")
    let oldString := (getStr parameters "old_string").getD ""
    let newString := (getStr parameters "new_string").getD ""
    Except.ok
      { toolName := toolName
        parameters := parameters
        description := description
        riskLevel := RiskLevel.MEDIUM
        explanation := "Modify existing file: " ++ editPath
        impacts :=
          ["📁 File: " ++ editPath,
           "🔄 Changes: " ++ (if toolName = "MultiEdit" then "Multiple edits" else "Single edit"),
           "📝 Find: \"" ++ oldString.take 50 ++
             (if oldString.length > 50 then "..." else "") ++ "\"",
           "✏️  Replace with: \"" ++ newString.take 50 ++
             (if newString.length > 50 then "..." else "") ++ "\""]
        recommendations :=
          ["Verify the file path is correct",
           "Review find/replace text carefully",
           "Consider making a backup first"] }
  else if toolName = "Bash" then
    let command := showVal (getStr parameters "command")
    let isDangerous := isDangerousCmd command
    let isNetworking := isNetworkingCmd command
    let isInstall := isInstallCmd command
    Except.ok
      { toolName := toolName
        parameters := parameters
        description := description
        riskLevel := if isDangerous then RiskLevel.CRITICAL
          else if isNetworking || isInstall then RiskLevel.HIGH else RiskLevel.MEDIUM
        explanation := "Execute shell command: " ++ command
        impacts :=
          ["💻 Command: " ++ command,
           "📂 Working directory: " ++ env.cwd,
           "👤 User: " ++ userShow env.userEnv] ++
          (if isDangerous then ["🚨 DANGEROUS: Command can delete/modify system files"] else []) ++
          (if isNetworking then ["🌐 NETWORK: Command will access external resources"] else []) ++
          (if isInstall then ["📦 INSTALL: Command will install software"] else [])
        recommendations :=
          ["Review command syntax carefully"] ++
          (if isDangerous then ["❌ DANGER: Double-check this is safe to run"] else []) ++
          (if isNetworking then ["🔒 Check network destination is trusted"] else []) ++
          ["Ensure you understand what this command does"] }
  else if toolName = "Read" then
    match getStr parameters "file_path" with
    | none => Except.error "TypeError: Cannot read properties of undefined (reading toLowerCase)"
    | some readPath =>
      let isSensitive := isSensitivePath (jsToLower readPath)
      Except.ok
        { toolName := toolName
          parameters := parameters
          description := description
          riskLevel := if isSensitive then RiskLevel.HIGH else RiskLevel.LOW
          explanation := "Read file contents: " ++ readPath
          impacts :=
            ["📖 File: " ++ readPath,
             "📂 Directory: " ++ dirname readPath] ++
            (if isSensitive then ["⚠️  Potentially sensitive file detected"] else []) ++
            ["👁️  Contents will be visible to Claude"]
          recommendations :=
            ["Verify file path is correct"] ++
            (if isSensitive then ["🔒 Check if file contains sensitive information"] else []) }
  else if toolName = "LS" then
    let lsPath := showVal (getStr parameters "path")
    Except.ok
      { toolName := toolName
        parameters := parameters
        description := description
        riskLevel := RiskLevel.LOW
        explanation := "List directory contents: " ++ lsPath
        impacts :=
          ["📂 Directory: " ++ lsPath,
           "👁️  File names will be visible to Claude",
           "📊 Directory structure will be revealed"]
        recommendations :=
          ["Safe operation - lists files only",
           "No files will be modified"] }
  else if toolName = "Grep" then
    let pattern := showVal (getStr parameters "pattern")
    let searchPath := grepSearchPath (getStr parameters "path")
    Except.ok
      { toolName := toolName
        parameters := parameters
        description := description
        riskLevel := RiskLevel.LOW
        explanation := "Search for pattern: \"" ++ pattern ++ "\" in " ++ searchPath
        impacts :=
          ["🔍 Pattern: " ++ pattern,
           "📂 Search in: " ++ searchPath,
           "👁️  Matching content will be visible to Claude"]
        recommendations :=
          ["Safe operation - searches files only",
           "No files will be modified"] }
  else if toolName = "WebFetch" then
    match env.urlHost (showVal (getStr parameters "url")) with
    | none => Except.error "TypeError: Invalid URL"
    | some domain =>
      Except.ok
        { toolName := toolName
          parameters := parameters
          description := description
          riskLevel := RiskLevel.MEDIUM
          explanation := "Fetch web content from: " ++ showVal (getStr parameters "url")
          impacts :=
            ["🌐 URL: " ++ showVal (getStr parameters "url"),
             "🏠 Domain: " ++ domain,
             "📡 Will make HTTP request",
             "👁️  Web content will be visible to Claude"]
          recommendations :=
            ["Verify URL is trusted and safe",
             "Check domain is legitimate",
             "No local files will be modified"] }
  else if toolName = "TodoWrite" then
    Except.ok
      { toolName := toolName
        parameters := parameters
        description := description
        riskLevel := RiskLevel.LOW
        explanation := "Update task tracking list"
        impacts :=
          ["📝 Manage todo items",
           "🎯 Track task progress",
           "💾 Temporary in-memory storage only"]
        recommendations :=
          ["Safe operation - task tracking only",
           "No files or system changes"] }
  else if strContains toolName "mcp_" || strContains toolName "@" then
    Except.ok
      { toolName := toolName
        parameters := parameters
        description := description
        riskLevel := RiskLevel.HIGH
        explanation := "MCP Tool: " ++ toolName ++ " - External integration"
        impacts :=
          ["🔌 MCP Server: " ++ toolName,
           "🌐 May access external services",
           "📊 Parameters will be sent to MCP server",
           "⚠️  External tool capabilities unknown",
           "🔄 May modify external resources"]
        recommendations :=
          ["🔒 Verify MCP server is trusted",
           "📋 Review parameters being sent",
           "⚠️  External tools may have side effects",
           "💡 Check MCP server documentation"] }
  else
    Except.ok
      { toolName := toolName
        parameters := parameters
        description := description
        riskLevel := RiskLevel.MEDIUM
        explanation := "Unknown tool: " ++ toolName
        impacts :=
          ["❓ Tool: " ++ toolName,
           "⚠️  Unknown capabilities",
           "📊 Parameters provided to unknown tool"]
        recommendations :=
          ["⚠️  Proceed with caution",
           "📚 Check tool documentation if available"] }

/-- Projection used to state risk facts without destructuring the `Except`. -/
def riskOf (r : Except String DetailedToolInfo) : Option RiskLevel :=
  match r with
  | Except.ok info => some info.riskLevel
  | Except.error _ => none

/-- Projection of the impact lines, for stating impact facts without
destructuring the `Except`. -/
def impactsOf (r : Except String DetailedToolInfo) : Option (List String) :=
  match r with
  | Except.ok info => some info.impacts
  | Except.error _ => none

/-- Whether the analysis completed without throwing. -/
def isOkE (r : Except String DetailedToolInfo) : Bool :=
  match r with
  | Except.ok _ => true
  | Except.error _ => false

/-- `EnhancedPermissionSystem.showContentPreview`: the preview data it renders —
the first five lines of `parameters.content` and the printed remaining-line
count (`lines.length - 5` when more than five lines, otherwise nothing, i.e. 0).
The guard `parameters.content && typeof parameters.content === 'string'`
skips absent, non-string, and empty-string (falsy) content. -/
def showContentPreview (parameters : Params) : List String × Nat :=
  match getStr parameters "content" with
  | some content =>
    if content = "" then ([], 0)
    else
      let lines := jsSplitNl content
      (lines.take 5, lines.length - 5)
  | none => ([], 0)

/-- The mutable fields of `EnhancedPermissionSystem`:
`private autoAllow = false; private allowedTools = new Set<string>();
private deniedTools = new Set<string>()`.  The string sets are modelled as
duplicate-free-by-construction lists. -/
structure PermState where
  autoAllow : Bool
  allowedTools : List String
  deniedTools : List String
deriving DecidableEq, Repr

/-- The state of a freshly constructed `EnhancedPermissionSystem`. -/
def initialState : PermState :=
  { autoAllow := false, allowedTools := [], deniedTools := [] }

/-- JavaScript `Set.prototype.add`: insert if absent. -/
def setAdd (l : List String) (x : String) : List String :=
  if x ∈ l then l else x :: l

/-- The state mutation of the prompt's `case 'y'` branch
(`this.allowedTools.add(toolName)`); the spec names it `recordAllowForever`. -/
def recordAllowForever (st : PermState) (toolName : String) : PermState :=
  { st with allowedTools := setAdd st.allowedTools toolName }

/-- The state mutation of the prompt's `case 'd'` branch
(`this.deniedTools.add(toolName)`); the spec names it `recordDenyForever`. -/
def recordDenyForever (st : PermState) (toolName : String) : PermState :=
  { st with deniedTools := setAdd st.deniedTools toolName }

/-- `PermissionResult`: `{ behavior: 'allow', updatedInput }` or
`{ behavior: 'deny', message }`. -/
inductive Decision where
  | allow (updatedInput : Params)
  | deny (message : String)
deriving DecidableEq, Repr

/-- Outcome of one `getUserPermission` call under a scripted list of operator
input lines: a resolved decision together with the post-call state, a
propagated JavaScript exception, or `blocked` when the readline prompt is
reached but no input line remains (the read blocks indefinitely). -/
inductive EvalResult where
  | ok (d : Decision) (st : PermState)
  | thrown (e : String)
  | blocked
deriving DecidableEq, Repr

/-- `EnhancedPermissionSystem.getUserPermission(toolName, parameters)`:
the fast path over the remembered state, then risk analysis, then the
readline switch.  The `case 'i'` branch re-invokes the whole evaluation on
the remaining scripted inputs, exactly as the source re-invokes
`this.getUserPermission(toolName, parameters)`. -/
def getUserPermission (env : SysEnv) (st : PermState) (toolName : String)
    (parameters : Params) (inputs : List String) : EvalResult :=
  if st.autoAllow = true ∨ toolName ∈ st.allowedTools then
    EvalResult.ok (Decision.allow parameters) st
  else if toolName ∈ st.deniedTools then
    EvalResult.ok (Decision.deny "Tool previously denied by user") st
  else
    match analyzeToolRequest env toolName parameters with
    | Except.error e => EvalResult.thrown e
    | Except.ok _ =>
      match inputs with
      | [] => EvalResult.blocked
      | ans :: rest =>
        let response := jsTrim (jsToLower ans)
        if response = "a" then
          EvalResult.ok (Decision.allow parameters) { st with autoAllow := true }
        else if response = "d" then
          EvalResult.ok (Decision.deny ("User denied all " ++ toolName ++ " requests"))
            (recordDenyForever st toolName)
        else if response = "i" then
          getUserPermission env st toolName parameters rest
        else if response = "y" ∨ response = "yes" then
          EvalResult.ok (Decision.allow parameters) (recordAllowForever st toolName)
        else
          EvalResult.ok (Decision.deny "User denied permission") st
termination_by structural inputs

/-- `StepsTo st st'`: the permission state can evolve from `st` to `st'`
through a sequence of resolved `getUserPermission` evaluations (the only
operation the agent runtime drives; `evaluate` in the spec's terms). -/
inductive StepsTo : PermState → PermState → Prop where
  | refl (st : PermState) : StepsTo st st
  | step {st st' st'' : PermState} (env : SysEnv) (toolName : String) (parameters : Params)
      (inputs : List String) (d : Decision) :
      StepsTo st st' →
      getUserPermission env st' toolName parameters inputs = EvalResult.ok d st'' →
      StepsTo st st''

/-- A permission state reachable from gateway construction through evaluations. -/
def Reachable (st : PermState) : Prop :=
  StepsTo initialState st

/-- A fixed concrete environment for witnesses and counterexamples: no path
exists on disk, no URL parses, working directory `/`, no `USER` variable. -/
def envA : SysEnv :=
  { fsExists := fun _ => false, urlHost := fun _ => none, cwd := "/", userEnv := none }

/-- Fast path, allow side: with the auto-allow flag set or the tool in
`allowedTools`, every evaluation resolves immediately to Allow with the
request's parameters and an unchanged state, for any environment and any
(possibly empty) operator input. -/
theorem gup_fast_allow (env : SysEnv) (st : PermState) (t : String) (p : Params)
    (inputs : List String) (h : st.autoAllow = true ∨ t ∈ st.allowedTools) :
    getUserPermission env st t p inputs = EvalResult.ok (Decision.allow p) st := by
  cases inputs <;> rw [getUserPermission, if_pos h]

/-- Fast path, deny side: with the allow fast path missed and the tool in
`deniedTools`, every evaluation resolves immediately to Deny. -/
theorem gup_fast_deny (env : SysEnv) (st : PermState) (t : String) (p : Params)
    (inputs : List String) (h1 : ¬(st.autoAllow = true ∨ t ∈ st.allowedTools))
    (h2 : t ∈ st.deniedTools) :
    getUserPermission env st t p inputs =
      EvalResult.ok (Decision.deny "Tool previously denied by user") st := by
  cases inputs <;> rw [getUserPermission, if_neg h1, if_pos h2]

/-- When both fast paths miss and the risk analysis throws, the exception
propagates out of the evaluation (no prompt is reached). -/
theorem gup_thrown (env : SysEnv) (st : PermState) (t : String) (p : Params)
    (inputs : List String) (h1 : ¬(st.autoAllow = true ∨ t ∈ st.allowedTools))
    (h2 : t ∉ st.deniedTools) (e : String)
    (hA : analyzeToolRequest env t p = Except.error e) :
    getUserPermission env st t p inputs = EvalResult.thrown e := by
  cases inputs <;> rw [getUserPermission, if_neg h1, if_neg h2, hA]

/-- When both fast paths miss and the analysis succeeds, the evaluation
reaches the readline prompt: with no input it blocks. -/
theorem gup_prompt_nil (env : SysEnv) (st : PermState) (t : String) (p : Params)
    (h1 : ¬(st.autoAllow = true ∨ t ∈ st.allowedTools)) (h2 : t ∉ st.deniedTools)
    (info : DetailedToolInfo) (hA : analyzeToolRequest env t p = Except.ok info) :
    getUserPermission env st t p [] = EvalResult.blocked := by
  rw [getUserPermission, if_neg h1, if_neg h2, hA]

/-- When both fast paths miss and the analysis succeeds, the evaluation
consumes the first input line and dispatches on its normalized form
exactly as the source's `switch (response)`. -/
theorem gup_prompt_cons (env : SysEnv) (st : PermState) (t : String) (p : Params)
    (h1 : ¬(st.autoAllow = true ∨ t ∈ st.allowedTools)) (h2 : t ∉ st.deniedTools)
    (info : DetailedToolInfo) (hA : analyzeToolRequest env t p = Except.ok info)
    (ans : String) (rest : List String) :
    getUserPermission env st t p (ans :: rest) =
      (if jsTrim (jsToLower ans) = "a" then
        EvalResult.ok (Decision.allow p) { st with autoAllow := true }
      else if jsTrim (jsToLower ans) = "d" then
        EvalResult.ok (Decision.deny ("User denied all " ++ t ++ " requests"))
          (recordDenyForever st t)
      else if jsTrim (jsToLower ans) = "i" then
        getUserPermission env st t p rest
      else if jsTrim (jsToLower ans) = "y" ∨ jsTrim (jsToLower ans) = "yes" then
        EvalResult.ok (Decision.allow p) (recordAllowForever st t)
      else
        EvalResult.ok (Decision.deny "User denied permission") st) := by
  rw [getUserPermission, if_neg h1, if_neg h2, hA]

/-- Membership in a `setAdd`-extended list. -/
theorem mem_setAdd {l : List String} {x y : String} :
    y ∈ setAdd l x ↔ y ∈ l ∨ y = x := by
  unfold setAdd
  split
  · rename_i hx
    constructor
    · exact Or.inl
    · rintro (h | rfl)
      · exact h
      · exact hx
  · simp [List.mem_cons, or_comm]

/-- Inversion: a resolved evaluation leaves the state unchanged, sets the
auto-allow flag, or records the current tool as denied forever or allowed
forever; the latter two happen only when the tool was in neither set and
the flag was off (the preconditions of reaching the prompt). -/
theorem gup_ok_inversion (env : SysEnv) (st : PermState) (t : String) (p : Params) :
    ∀ (inputs : List String) (d : Decision) (st' : PermState),
      getUserPermission env st t p inputs = EvalResult.ok d st' →
      st' = st ∨ st' = { st with autoAllow := true } ∨
      ((st' = recordDenyForever st t ∨ st' = recordAllowForever st t) ∧
        st.autoAllow = false ∧ t ∉ st.allowedTools ∧ t ∉ st.deniedTools) := by
  intro inputs
  induction inputs with
  | nil =>
    intro d st' h
    rw [getUserPermission] at h
    by_cases h1 : st.autoAllow = true ∨ t ∈ st.allowedTools
    · rw [if_pos h1] at h
      cases h
      exact Or.inl rfl
    · rw [if_neg h1] at h
      by_cases h2 : t ∈ st.deniedTools
      · rw [if_pos h2] at h
        cases h
        exact Or.inl rfl
      · rw [if_neg h2] at h
        cases hA : analyzeToolRequest env t p with
        | error e => rw [hA] at h; exact absurd h (by simp)
        | ok info => rw [hA] at h; exact absurd h (by simp)
  | cons ans rest ih =>
    intro d st' h
    by_cases h1 : st.autoAllow = true ∨ t ∈ st.allowedTools
    · rw [gup_fast_allow env st t p (ans :: rest) h1] at h
      cases h
      exact Or.inl rfl
    · by_cases h2 : t ∈ st.deniedTools
      · rw [gup_fast_deny env st t p (ans :: rest) h1 h2] at h
        cases h
        exact Or.inl rfl
      · have hmiss : st.autoAllow = false ∧ t ∉ st.allowedTools := by
          constructor
          · cases hb : st.autoAllow
            · rfl
            · exact absurd (Or.inl hb) h1
          · exact fun hx => h1 (Or.inr hx)
        cases hA : analyzeToolRequest env t p with
        | error e =>
          rw [gup_thrown env st t p (ans :: rest) h1 h2 e hA] at h
          exact absurd h (by simp)
        | ok info =>
          rw [gup_prompt_cons env st t p h1 h2 info hA ans rest] at h
          by_cases ra : jsTrim (jsToLower ans) = "a"
          · rw [if_pos ra] at h
            cases h
            exact Or.inr (Or.inl rfl)
          · rw [if_neg ra] at h
            by_cases rd : jsTrim (jsToLower ans) = "d"
            · rw [if_pos rd] at h
              cases h
              exact Or.inr (Or.inr ⟨Or.inl rfl, hmiss.1, hmiss.2, h2⟩)
            · rw [if_neg rd] at h
              by_cases ri : jsTrim (jsToLower ans) = "i"
              · rw [if_pos ri] at h
                exact ih d st' h
              · rw [if_neg ri] at h
                by_cases ry : jsTrim (jsToLower ans) = "y" ∨ jsTrim (jsToLower ans) = "yes"
                · rw [if_pos ry] at h
                  cases h
                  exact Or.inr (Or.inr ⟨Or.inr rfl, hmiss.1, hmiss.2, h2⟩)
                · rw [if_neg ry] at h
                  cases h
                  exact Or.inl rfl

/-- A resolved evaluation never removes a tool from the allow set. -/
theorem gup_preserves_allowed {env : SysEnv} {st : PermState} {t : String} {p : Params}
    {inputs : List String} {d : Decision} {st' : PermState}
    (h : getUserPermission env st t p inputs = EvalResult.ok d st')
    (x : String) (hx : x ∈ st.allowedTools) : x ∈ st'.allowedTools := by
  rcases gup_ok_inversion env st t p inputs d st' h with rfl | rfl | ⟨(rfl | rfl), _⟩
  · exact hx
  · exact hx
  · exact hx
  · exact mem_setAdd.mpr (Or.inl hx)

/-- A resolved evaluation preserves disjointness of the allow and deny sets. -/
theorem gup_preserves_disjoint {env : SysEnv} {st : PermState} {t : String} {p : Params}
    {inputs : List String} {d : Decision} {st' : PermState}
    (h : getUserPermission env st t p inputs = EvalResult.ok d st')
    (hdisj : ∀ x, x ∈ st.allowedTools → x ∉ st.deniedTools) :
    ∀ x, x ∈ st'.allowedTools → x ∉ st'.deniedTools := by
  rcases gup_ok_inversion env st t p inputs d st' h with rfl | rfl | ⟨(rfl | rfl), hf, hal, hdn⟩
  · exact hdisj
  · exact hdisj
  · intro x hx hxd
    rcases mem_setAdd.mp hxd with hxd' | rfl
    · exact hdisj x hx hxd'
    · exact hal hx
  · intro x hx hxd
    rcases mem_setAdd.mp hx with hx' | rfl
    · exact hdisj x hx' hxd
    · exact hdn hxd

/-- Along any sequence of resolved evaluations, the allow set only grows. -/
theorem stepsTo_preserves_allowed {s s' : PermState} (h : StepsTo s s')
    (x : String) (hx : x ∈ s.allowedTools) : x ∈ s'.allowedTools := by
  induction h with
  | refl => exact hx
  | step env t p inputs d prev heq ih => exact gup_preserves_allowed heq x ih

/-- Unfolded form of the `'Write'` case when the path field is absent:
the analysis throws. -/
theorem analyze_Write_none (env : SysEnv) (p : Params)
    (hfp : getStr p "file_path" = none) :
    analyzeToolRequest env "Write" p =
      Except.error "TypeError: Cannot read properties of undefined (reading includes)" := by
  unfold analyzeToolRequest
  rw [hfp]
  rfl

/-- Unfolded form of the `'Write'` case when the path field is present. -/
theorem analyze_Write_some (env : SysEnv) (p : Params) (fp : String)
    (hfp : getStr p "file_path" = some fp) :
    analyzeToolRequest env "Write" p = Except.ok
      { toolName := "Write"
        parameters := p
        description := "Execute Write tool"
        riskLevel := if isSystemPath fp then RiskLevel.CRITICAL
          else if env.fsExists fp then RiskLevel.MEDIUM else RiskLevel.LOW
        explanation := "Create or modify file at: " ++ fp
        impacts :=
          ["📁 Target: " ++ fp,
           "📄 Content size: " ++
             toString (match getStr p "content" with
               | some content => content.length
               | none => 0) ++ " characters",
           if env.fsExists fp then "⚠️  Will OVERWRITE existing file"
             else "✨ Will create NEW file",
           "📂 Directory: " ++ dirname fp] ++
          (if isSystemPath fp then ["🚨 WARNING: System directory detected!"] else [])
        recommendations :=
          ["Review the file path carefully",
           if env.fsExists fp then "Backup existing file if important"
             else "Ensure directory is correct",
           "Check content preview below"] ++
          (if isSystemPath fp then ["❌ AVOID: System files can break your system"] else []) } := by
  unfold analyzeToolRequest
  rw [hfp]
  rfl

/-- Unfolded form of the `'Bash'` case (total for every parameter object). -/
theorem analyze_Bash (env : SysEnv) (p : Params) :
    analyzeToolRequest env "Bash" p = Except.ok
      { toolName := "Bash"
        parameters := p
        description := "Execute Bash tool"
        riskLevel := if isDangerousCmd (showVal (getStr p "command")) then RiskLevel.CRITICAL
          else if isNetworkingCmd (showVal (getStr p "command")) ||
              isInstallCmd (showVal (getStr p "command")) then RiskLevel.HIGH
          else RiskLevel.MEDIUM
        explanation := "Execute shell command: " ++ showVal (getStr p "command")
        impacts :=
          ["💻 Command: " ++ showVal (getStr p "command"),
           "📂 Working directory: " ++ env.cwd,
           "👤 User: " ++ userShow env.userEnv] ++
          (if isDangerousCmd (showVal (getStr p "command")) then
            ["🚨 DANGEROUS: Command can delete/modify system files"] else []) ++
          (if isNetworkingCmd (showVal (getStr p "command")) then
            ["🌐 NETWORK: Command will access external resources"] else []) ++
          (if isInstallCmd (showVal (getStr p "command")) then
            ["📦 INSTALL: Command will install software"] else [])
        recommendations :=
          ["Review command syntax carefully"] ++
          (if isDangerousCmd (showVal (getStr p "command")) then
            ["❌ DANGER: Double-check this is safe to run"] else []) ++
          (if isNetworkingCmd (showVal (getStr p "command")) then
            ["🔒 Check network destination is trusted"] else []) ++
          ["Ensure you understand what this command does"] } := rfl

/-- Unfolded form of the `'Read'` case when the path field is absent:
the analysis throws. -/
theorem analyze_Read_none (env : SysEnv) (p : Params)
    (hfp : getStr p "file_path" = none) :
    analyzeToolRequest env "Read" p =
      Except.error "TypeError: Cannot read properties of undefined (reading toLowerCase)" := by
  unfold analyzeToolRequest
  rw [hfp]
  rfl

/-- The `'Read'` case completes when the path field is present. -/
theorem isOkE_Read_some (env : SysEnv) (p : Params) (fp : String)
    (hfp : getStr p "file_path" = some fp) :
    isOkE (analyzeToolRequest env "Read" p) = true := by
  unfold analyzeToolRequest isOkE
  rw [hfp]
  rfl

/-- The `'Edit'` / `'MultiEdit'` case always completes. -/
theorem isOkE_Edit (env : SysEnv) (t : String) (p : Params)
    (h : t = "Edit" ∨ t = "MultiEdit") :
    isOkE (analyzeToolRequest env t p) = true := by
  rcases h with rfl | rfl <;> rfl

/-- Unfolded form of the `'WebFetch'` case: the result is dictated by whether
the URL parses. -/
theorem analyze_WebFetch (env : SysEnv) (p : Params) :
    analyzeToolRequest env "WebFetch" p =
      match env.urlHost (showVal (getStr p "url")) with
      | none => Except.error "TypeError: Invalid URL"
      | some domain => Except.ok
          { toolName := "WebFetch"
            parameters := p
            description := "Execute WebFetch tool"
            riskLevel := RiskLevel.MEDIUM
            explanation := "Fetch web content from: " ++ showVal (getStr p "url")
            impacts :=
              ["🌐 URL: " ++ showVal (getStr p "url"),
               "🏠 Domain: " ++ domain,
               "📡 Will make HTTP request",
               "👁️  Web content will be visible to Claude"]
            recommendations :=
              ["Verify URL is trusted and safe",
               "Check domain is legitimate",
               "No local files will be modified"] } := rfl

/-- The `'WebFetch'` case completes exactly when the URL parses. -/
theorem isOkE_WebFetch (env : SysEnv) (p : Params) :
    isOkE (analyzeToolRequest env "WebFetch" p) =
      (env.urlHost (showVal (getStr p "url"))).isSome := by
  rw [analyze_WebFetch]
  cases env.urlHost (showVal (getStr p "url")) <;> rfl

/-- Every unrecognized tool name reaches the MCP or unknown-tool arm, both of
which complete. -/
theorem isOkE_default (env : SysEnv) (t : String) (p : Params)
    (hW : t ≠ "Write") (hE : ¬(t = "Edit" ∨ t = "MultiEdit")) (hB : t ≠ "Bash")
    (hR : t ≠ "Read") (hL : t ≠ "LS") (hG : t ≠ "Grep") (hF : t ≠ "WebFetch")
    (hT : t ≠ "TodoWrite") :
    isOkE (analyzeToolRequest env t p) = true := by
  unfold analyzeToolRequest isOkE
  rw [if_neg hW, if_neg hE, if_neg hB, if_neg hR, if_neg hL, if_neg hG, if_neg hF, if_neg hT]
  by_cases hM : (strContains t "mcp_" || strContains t "@") = true
  · rw [if_pos hM]
  · rw [if_neg hM]

/-- Claim C6 (confirmed): for every execute-shell (`Bash`) request the command
text is tested against three independent token families — destructive
(CRITICAL), networking (HIGH), package-install (HIGH) — each matching family
contributes its own impact line, the risk is the maximum over matched families
with MEDIUM as the default, and in particular `rm -rf /` classifies CRITICAL
and `curl https://example.com` classifies HIGH. -/
theorem c6_shell_risk_families (env : SysEnv) (p : Params) :
    riskOf (analyzeToolRequest env "Bash" p) =
      some (List.foldr riskMax RiskLevel.MEDIUM
        ((if isDangerousCmd (showVal (getStr p "command")) then [RiskLevel.CRITICAL] else []) ++
         (if isNetworkingCmd (showVal (getStr p "command")) then [RiskLevel.HIGH] else []) ++
         (if isInstallCmd (showVal (getStr p "command")) then [RiskLevel.HIGH] else []))) ∧
    impactsOf (analyzeToolRequest env "Bash" p) =
      some (["💻 Command: " ++ showVal (getStr p "command"),
             "📂 Working directory: " ++ env.cwd,
             "👤 User: " ++ userShow env.userEnv] ++
        (if isDangerousCmd (showVal (getStr p "command")) then
          ["🚨 DANGEROUS: Command can delete/modify system files"] else []) ++
        (if isNetworkingCmd (showVal (getStr p "command")) then
          ["🌐 NETWORK: Command will access external resources"] else []) ++
        (if isInstallCmd (showVal (getStr p "command")) then
          ["📦 INSTALL: Command will install software"] else [])) ∧
    riskOf (analyzeToolRequest env "Bash" [("command", JsVal.str "rm -rf /")]) =
      some RiskLevel.CRITICAL ∧
    riskOf (analyzeToolRequest env "Bash" [("command", JsVal.str "curl https://example.com")]) =
      some RiskLevel.HIGH := by
  refine ⟨?_, rfl, rfl, rfl⟩
  rw [analyze_Bash env p]
  cases isDangerousCmd (showVal (getStr p "command")) <;>
    cases isNetworkingCmd (showVal (getStr p "command")) <;>
      cases isInstallCmd (showVal (getStr p "command")) <;> rfl

/-- Claim C7 (amended): for a write-file (`Write`) request whose path field is
present, the risk is CRITICAL when the path CONTAINS a system-directory marker
(`/etc/`, `/usr/`, `/sys/`) anywhere as a substring — not only when it falls
under such a prefix — else MEDIUM when the path exists, else LOW; in
particular `/etc/passwd` classifies CRITICAL. -/
theorem c7_write_system_marker_amended (env : SysEnv) (p : Params) (filePath : String)
    (hfp : getStr p "file_path" = some filePath) :
    riskOf (analyzeToolRequest env "Write" p) =
      some (if isSystemPath filePath then RiskLevel.CRITICAL
        else if env.fsExists filePath then RiskLevel.MEDIUM else RiskLevel.LOW) ∧
    riskOf (analyzeToolRequest env "Write"
      [("file_path", JsVal.str "/etc/passwd"), ("content", JsVal.str "x")]) =
      some RiskLevel.CRITICAL := by
  constructor
  · rw [analyze_Write_some env p filePath hfp]
    rfl
  · rfl

/-- Claim C7 counterexample: the path `/data/etc/config` does not fall under
any system-directory prefix and does not exist, so the claim as stated
predicts LOW; the code marks it CRITICAL because its check is a substring
match on `/etc/`. -/
theorem c7_counterexample :
    riskOf (analyzeToolRequest envA "Write"
      [("file_path", JsVal.str "/data/etc/config"), ("content", JsVal.str "x")]) =
      some RiskLevel.CRITICAL ∧
    underSystemDir "/data/etc/config" = false ∧
    envA.fsExists "/data/etc/config" = false := by
  exact ⟨rfl, by decide, rfl⟩

/-- Claim C7 witness: the amended theorem applied to a fresh `/tmp` path. -/
theorem c7_witness :
    riskOf (analyzeToolRequest envA "Write"
      [("file_path", JsVal.str "/tmp/new.txt"), ("content", JsVal.str "x")]) =
      some (if isSystemPath "/tmp/new.txt" then RiskLevel.CRITICAL
        else if envA.fsExists "/tmp/new.txt" then RiskLevel.MEDIUM else RiskLevel.LOW) :=
  (c7_write_system_marker_amended envA
    [("file_path", JsVal.str "/tmp/new.txt"), ("content", JsVal.str "x")] "/tmp/new.txt" rfl).1

/-- Claim C8 (confirmed): for every parameter object the content preview holds
at most 5 lines; with a non-empty textual content field the preview is the
first 5 lines of the content split on newlines and the remaining count is the
number of lines beyond the first 5; without a content field the preview is
empty and nothing fails. -/
theorem c8_preview_cap (p : Params) :
    (showContentPreview p).1.length ≤ 5 ∧
    (∀ c, getStr p "content" = some c → c ≠ "" →
      (showContentPreview p).1 = (jsSplitNl c).take 5 ∧
      (showContentPreview p).2 = (jsSplitNl c).length - 5) ∧
    (getStr p "content" = none → showContentPreview p = ([], 0)) := by
  refine ⟨?_, ?_, ?_⟩
  · cases h : getStr p "content" with
    | none => simp [showContentPreview, h]
    | some c =>
      by_cases hc : c = ""
      · simp [showContentPreview, h, hc]
      · simp only [showContentPreview, h, if_neg hc]
        simp [List.length_take]
  · intro c h hc
    constructor <;> simp [showContentPreview, h, hc]
  · intro h
    simp [showContentPreview, h]

/-- Claim C8 witness: the cap theorem applied to a seven-line content field. -/
theorem c8_witness :
    (showContentPreview [("content", JsVal.str "a\nb\nc\nd\ne\nf\ng")]).1.length ≤ 5 ∧
    (showContentPreview [("content", JsVal.str "a\nb\nc\nd\ne\nf\ng")]).1 =
      (jsSplitNl "a\nb\nc\nd\ne\nf\ng").take 5 ∧
    (showContentPreview [("content", JsVal.str "a\nb\nc\nd\ne\nf\ng")]).2 =
      (jsSplitNl "a\nb\nc\nd\ne\nf\ng").length - 5 := by
  have h := c8_preview_cap [("content", JsVal.str "a\nb\nc\nd\ne\nf\ng")]
  exact ⟨h.1, (h.2.1 "a\nb\nc\nd\ne\nf\ng" rfl (by decide)).1,
    (h.2.1 "a\nb\nc\nd\ne\nf\ng" rfl (by decide)).2⟩

/-- Claim C3 (amended): the classifier does NOT degrade gracefully on every
malformed request — it throws exactly when a write-file (`Write`) or
read-file (`Read`) request has no path field, or a fetch-web-resource
(`WebFetch`) request has a URL the URL parser rejects; every other request,
including other categories with missing fields, yields a risk profile. -/
theorem c3_classify_throws_amended (env : SysEnv) (t : String) (p : Params) :
    isOkE (analyzeToolRequest env t p) = false ↔
      (t = "Write" ∧ getStr p "file_path" = none) ∨
      (t = "Read" ∧ getStr p "file_path" = none) ∨
      (t = "WebFetch" ∧ env.urlHost (showVal (getStr p "url")) = none) := by
  by_cases hW : t = "Write"
  · subst hW
    cases hfp : getStr p "file_path" with
    | none =>
      rw [analyze_Write_none env p hfp]
      exact ⟨fun _ => Or.inl ⟨rfl, rfl⟩, fun _ => rfl⟩
    | some fp =>
      rw [analyze_Write_some env p fp hfp]
      constructor
      · intro h
        simp [isOkE] at h
      · rintro (⟨_, h2⟩ | ⟨h1, _⟩ | ⟨h1, _⟩)
        · exact Option.noConfusion h2
        · exact absurd h1 (by decide)
        · exact absurd h1 (by decide)
  · by_cases hE : t = "Edit" ∨ t = "MultiEdit"
    · rw [isOkE_Edit env t p hE]
      constructor
      · intro h
        exact absurd h (by decide)
      · rintro (⟨h1, _⟩ | ⟨h1, _⟩ | ⟨h1, _⟩)
        · exact absurd h1 hW
        · rcases hE with rfl | rfl <;> exact absurd h1 (by decide)
        · rcases hE with rfl | rfl <;> exact absurd h1 (by decide)
    · by_cases hB : t = "Bash"
      · subst hB
        rw [show isOkE (analyzeToolRequest env "Bash" p) = true from rfl]
        constructor
        · intro h
          exact absurd h (by decide)
        · rintro (⟨h1, _⟩ | ⟨h1, _⟩ | ⟨h1, _⟩) <;> exact absurd h1 (by decide)
      · by_cases hR : t = "Read"
        · subst hR
          cases hfp : getStr p "file_path" with
          | none =>
            rw [analyze_Read_none env p hfp]
            exact ⟨fun _ => Or.inr (Or.inl ⟨rfl, rfl⟩), fun _ => rfl⟩
          | some fp =>
            rw [isOkE_Read_some env p fp hfp]
            constructor
            · intro h
              exact absurd h (by decide)
            · rintro (⟨h1, _⟩ | ⟨_, h2⟩ | ⟨h1, _⟩)
              · exact absurd h1 (by decide)
              · exact Option.noConfusion h2
              · exact absurd h1 (by decide)
        · by_cases hL : t = "LS"
          · subst hL
            rw [show isOkE (analyzeToolRequest env "LS" p) = true from rfl]
            constructor
            · intro h
              exact absurd h (by decide)
            · rintro (⟨h1, _⟩ | ⟨h1, _⟩ | ⟨h1, _⟩) <;> exact absurd h1 (by decide)
          · by_cases hG : t = "Grep"
            · subst hG
              rw [show isOkE (analyzeToolRequest env "Grep" p) = true from rfl]
              constructor
              · intro h
                exact absurd h (by decide)
              · rintro (⟨h1, _⟩ | ⟨h1, _⟩ | ⟨h1, _⟩) <;> exact absurd h1 (by decide)
            · by_cases hF : t = "WebFetch"
              · subst hF
                rw [isOkE_WebFetch env p]
                cases hu : env.urlHost (showVal (getStr p "url")) with
                | none => exact ⟨fun _ => Or.inr (Or.inr ⟨rfl, rfl⟩), fun _ => rfl⟩
                | some d =>
                  constructor
                  · intro h
                    simp at h
                  · rintro (⟨h1, _⟩ | ⟨h1, _⟩ | ⟨_, h2⟩)
                    · exact absurd h1 (by decide)
                    · exact absurd h1 (by decide)
                    · exact Option.noConfusion h2
              · by_cases hT : t = "TodoWrite"
                · subst hT
                  rw [show isOkE (analyzeToolRequest env "TodoWrite" p) = true from rfl]
                  constructor
                  · intro h
                    exact absurd h (by decide)
                  · rintro (⟨h1, _⟩ | ⟨h1, _⟩ | ⟨h1, _⟩) <;> exact absurd h1 (by decide)
                · rw [isOkE_default env t p hW hE hB hR hL hG hF hT]
                  constructor
                  · intro h
                    exact absurd h (by decide)
                  · rintro (⟨h1, _⟩ | ⟨h1, _⟩ | ⟨h1, _⟩)
                    · exact absurd h1 hW
                    · exact absurd h1 hR
                    · exact absurd h1 hF

/-- Claim C3 counterexample: a write-file request with no path — one of the
claim's own examples of input that "must not throw" — makes the classifier
throw a `TypeError` instead of returning a profile. -/
theorem c3_counterexample :
    analyzeToolRequest envA "Write" [("content", JsVal.str "x")] =
      Except.error "TypeError: Cannot read properties of undefined (reading includes)" ∧
    isOkE (analyzeToolRequest envA "Write" [("content", JsVal.str "x")]) = false := by
  exact ⟨rfl, rfl⟩

/-- Claim C1 (amended): a prompt resolved by an unrecognized or empty input
(DENY_ONCE) leaves the permission state exactly unchanged, but a prompt
resolved by `y`/`yes` does NOT: it inserts the tool name into the per-tool
allow set (autoAllow flag and deny set unchanged), so the decision does not
apply only to the current request. -/
theorem c1_once_decisions_amended (env : SysEnv) (st : PermState) (t : String)
    (p : Params) (ans : String) (rest : List String)
    (hauto : st.autoAllow = false) (hal : t ∉ st.allowedTools) (hd : t ∉ st.deniedTools)
    (hOk : isOkE (analyzeToolRequest env t p) = true) :
    (jsTrim (jsToLower ans) ∉ (["y", "yes", "a", "d", "i"] : List String) →
      getUserPermission env st t p (ans :: rest) =
        EvalResult.ok (Decision.deny "User denied permission") st) ∧
    ((jsTrim (jsToLower ans) = "y" ∨ jsTrim (jsToLower ans) = "yes") →
      getUserPermission env st t p (ans :: rest) =
        EvalResult.ok (Decision.allow p) (recordAllowForever st t) ∧
      (recordAllowForever st t).allowedTools = t :: st.allowedTools ∧
      (recordAllowForever st t).autoAllow = st.autoAllow ∧
      (recordAllowForever st t).deniedTools = st.deniedTools ∧
      recordAllowForever st t ≠ st) := by
  have h1 : ¬(st.autoAllow = true ∨ t ∈ st.allowedTools) := by
    rintro (hb | hm)
    · rw [hauto] at hb
      exact Bool.false_ne_true hb
    · exact hal hm
  obtain ⟨info, hA⟩ : ∃ info, analyzeToolRequest env t p = Except.ok info := by
    cases hE : analyzeToolRequest env t p with
    | ok i => exact ⟨i, rfl⟩
    | error e => rw [hE] at hOk; simp [isOkE] at hOk
  constructor
  · intro hno
    simp only [List.mem_cons, List.not_mem_nil, or_false, not_or] at hno
    obtain ⟨hy, hyes, ha, hdd, hi⟩ := hno
    rw [gup_prompt_cons env st t p h1 hd info hA ans rest,
      if_neg ha, if_neg hdd, if_neg hi, if_neg (by rintro (h | h) <;> [exact hy h; exact hyes h])]
  · intro hyy
    have ha : jsTrim (jsToLower ans) ≠ "a" := by
      rcases hyy with h | h <;> rw [h] <;> decide
    have hdd : jsTrim (jsToLower ans) ≠ "d" := by
      rcases hyy with h | h <;> rw [h] <;> decide
    have hi : jsTrim (jsToLower ans) ≠ "i" := by
      rcases hyy with h | h <;> rw [h] <;> decide
    have hset : setAdd st.allowedTools t = t :: st.allowedTools := by
      unfold setAdd
      rw [if_neg hal]
    refine ⟨?_, hset, rfl, rfl, ?_⟩
    · rw [gup_prompt_cons env st t p h1 hd info hA ans rest,
        if_neg ha, if_neg hdd, if_neg hi, if_pos hyy]
    · intro hEq
      have hlists : (recordAllowForever st t).allowedTools = st.allowedTools := by rw [hEq]
      rw [show (recordAllowForever st t).allowedTools = setAdd st.allowedTools t from rfl,
        hset] at hlists
      exact List.cons_ne_self t st.allowedTools hlists

/-- Claim C1 counterexample: on a fresh system, resolving a `Bash` request
with input `y` changes the permission state (`Bash` enters the allow set),
refuting "the permission state is exactly the same after the evaluation". -/
theorem c1_counterexample :
    getUserPermission envA initialState "Bash" [("command", JsVal.str "ls")] ["y"] =
      EvalResult.ok (Decision.allow [("command", JsVal.str "ls")])
        { autoAllow := false, allowedTools := ["Bash"], deniedTools := [] } ∧
    ({ autoAllow := false, allowedTools := ["Bash"], deniedTools := [] } : PermState) ≠
      initialState := by
  exact ⟨rfl, by decide⟩

/-- Claim C1 witness: the amended theorem applied to input `n` on a fresh
state — a one-time denial with the state unchanged. -/
theorem c1_witness :
    getUserPermission envA initialState "Bash" [("command", JsVal.str "ls")] ["n"] =
      EvalResult.ok (Decision.deny "User denied permission") initialState :=
  (c1_once_decisions_amended envA initialState "Bash" [("command", JsVal.str "ls")] "n" []
    rfl (by decide) (by decide) rfl).1 (by decide)

/-- Claim C2 (amended): in every permission state reachable from construction
through evaluations, no tool name is in both the allow set and the deny set —
because the prompt (the only place the sets grow) is reached only when the
tool is in neither set.  However, the raw record operations themselves do not
remove the name from the opposite set, so applying allow-forever then
deny-forever directly leaves the name in both sets (see the counterexample). -/
theorem c2_mutual_exclusion_amended (st : PermState) (h : Reachable st) :
    ∀ x : String, ¬(x ∈ st.allowedTools ∧ x ∈ st.deniedTools) := by
  unfold Reachable at h
  induction h with
  | refl => intro x hx; exact absurd hx.1 (by simp [initialState])
  | step env t p inputs d prev heq ih =>
    intro x hx
    exact gup_preserves_disjoint heq (fun y hy hyd => ih y ⟨hy, hyd⟩) x hx.1 hx.2

/-- Claim C2 counterexample: recording allow-forever for `Write` and then
deny-forever for `Write` (the source's bare `Set.add` operations) leaves
`Write` in BOTH sets, not only in the deny set as the claim states. -/
theorem c2_counterexample :
    "Write" ∈ (recordDenyForever (recordAllowForever initialState "Write") "Write").allowedTools ∧
    "Write" ∈ (recordDenyForever (recordAllowForever initialState "Write") "Write").deniedTools := by
  decide

/-- Claim C2 witness: the amended invariant applied to the reachable state
left by denying `Write` forever on a fresh system. -/
theorem c2_witness :
    ¬("Write" ∈ ({ autoAllow := false, allowedTools := [], deniedTools := ["Write"] } : PermState).allowedTools ∧
      "Write" ∈ ({ autoAllow := false, allowedTools := [], deniedTools := ["Write"] } : PermState).deniedTools) :=
  c2_mutual_exclusion_amended { autoAllow := false, allowedTools := [], deniedTools := ["Write"] }
    (StepsTo.step envA "Write" [("file_path", JsVal.str "/tmp/a"), ("content", JsVal.str "x")]
      ["d"] (Decision.deny "User denied all Write requests") (StepsTo.refl initialState)
      (by decide)) "Write"

/-- Claim C4 (amended): the fast path behaves exactly as claimed — auto-allow
or membership in the allow set yields Allow immediately (for every environment
and even with no operator input, i.e. without classifying or prompting, and
with priority over the deny set), otherwise membership in the deny set yields
Deny immediately; but in the remaining case the prompt is reached only when
classification completes — a malformed request that makes the classifier
throw (e.g. `Write` with no path) propagates the error and never prompts. -/
theorem c4_fast_path_amended (env : SysEnv) (st : PermState) (t : String) (p : Params)
    (inputs : List String) :
    ((st.autoAllow = true ∨ t ∈ st.allowedTools) →
      getUserPermission env st t p inputs = EvalResult.ok (Decision.allow p) st) ∧
    (st.autoAllow = false → t ∉ st.allowedTools → t ∈ st.deniedTools →
      getUserPermission env st t p inputs =
        EvalResult.ok (Decision.deny "Tool previously denied by user") st) ∧
    (st.autoAllow = false → t ∉ st.allowedTools → t ∉ st.deniedTools →
      isOkE (analyzeToolRequest env t p) = true →
      getUserPermission env st t p [] = EvalResult.blocked) := by
  refine ⟨fun h => gup_fast_allow env st t p inputs h, ?_, ?_⟩
  · intro hf hal hdm
    refine gup_fast_deny env st t p inputs ?_ hdm
    rintro (hb | hm)
    · rw [hf] at hb
      exact Bool.false_ne_true hb
    · exact hal hm
  · intro hf hal hd hOk
    obtain ⟨info, hA⟩ : ∃ info, analyzeToolRequest env t p = Except.ok info := by
      cases hE : analyzeToolRequest env t p with
      | ok i => exact ⟨i, rfl⟩
      | error e => rw [hE] at hOk; simp [isOkE] at hOk
    refine gup_prompt_nil env st t p ?_ hd info hA
    rintro (hb | hm)
    · rw [hf] at hb
      exact Bool.false_ne_true hb
    · exact hal hm

/-- Claim C4 counterexample: on a fresh state, a `Write` request with no path
misses every fast path, yet the interactive prompt is NOT reached — the
classifier throws and the error propagates. -/
theorem c4_counterexample :
    initialState.autoAllow = false ∧
    "Write" ∉ initialState.allowedTools ∧
    "Write" ∉ initialState.deniedTools ∧
    getUserPermission envA initialState "Write" [] [] =
      EvalResult.thrown "TypeError: Cannot read properties of undefined (reading includes)" ∧
    getUserPermission envA initialState "Write" [] [] ≠ EvalResult.blocked := by
  exact ⟨rfl, by decide, by decide, rfl, by decide⟩

/-- Claim C4 witness: priority of autoAllow over the deny set, the fast deny,
and the prompt being reached on a well-formed fresh request. -/
theorem c4_witness :
    getUserPermission envA { autoAllow := true, allowedTools := [], deniedTools := ["X"] } "X" [] [] =
      EvalResult.ok (Decision.allow [])
        { autoAllow := true, allowedTools := [], deniedTools := ["X"] } ∧
    getUserPermission envA { autoAllow := false, allowedTools := [], deniedTools := ["Bash"] }
        "Bash" [("command", JsVal.str "ls")] [] =
      EvalResult.ok (Decision.deny "Tool previously denied by user")
        { autoAllow := false, allowedTools := [], deniedTools := ["Bash"] } ∧
    getUserPermission envA initialState "Bash" [("command", JsVal.str "ls")] [] =
      EvalResult.blocked := by
  refine ⟨(c4_fast_path_amended envA _ "X" [] []).1 (Or.inl rfl),
    (c4_fast_path_amended envA _ "Bash" [("command", JsVal.str "ls")] []).2.1 rfl
      (by decide) (by decide),
    (c4_fast_path_amended envA initialState "Bash" [("command", JsVal.str "ls")] []).2.2 rfl
      (by decide) (by decide) rfl⟩

/-- Claim C5 (confirmed): after trimming and lowercasing the operator's input
line, `y`/`yes` resolves as Allow (recording the tool as allowed), `a`
resolves as Allow and sets the global auto-allow flag, `d` resolves as Deny
and records the tool as denied forever, `i` re-presents the same request
without consuming a decision, and every other input — including `n`, the
empty line, and unrecognized text — resolves as a one-time Deny with the
state unchanged (fail-closed default). -/
theorem c5_prompt_token_semantics (env : SysEnv) (st : PermState) (t : String)
    (p : Params) (ans : String) (rest : List String)
    (hauto : st.autoAllow = false) (hal : t ∉ st.allowedTools) (hd : t ∉ st.deniedTools)
    (hOk : isOkE (analyzeToolRequest env t p) = true) :
    getUserPermission env st t p (ans :: rest) =
      (if jsTrim (jsToLower ans) = "y" ∨ jsTrim (jsToLower ans) = "yes" then
        EvalResult.ok (Decision.allow p) (recordAllowForever st t)
      else if jsTrim (jsToLower ans) = "a" then
        EvalResult.ok (Decision.allow p) { st with autoAllow := true }
      else if jsTrim (jsToLower ans) = "d" then
        EvalResult.ok (Decision.deny ("User denied all " ++ t ++ " requests"))
          (recordDenyForever st t)
      else if jsTrim (jsToLower ans) = "i" then
        getUserPermission env st t p rest
      else
        EvalResult.ok (Decision.deny "User denied permission") st) := by
  have h1 : ¬(st.autoAllow = true ∨ t ∈ st.allowedTools) := by
    rintro (hb | hm)
    · rw [hauto] at hb
      exact Bool.false_ne_true hb
    · exact hal hm
  obtain ⟨info, hA⟩ : ∃ info, analyzeToolRequest env t p = Except.ok info := by
    cases hE : analyzeToolRequest env t p with
    | ok i => exact ⟨i, rfl⟩
    | error e => rw [hE] at hOk; simp [isOkE] at hOk
  rw [gup_prompt_cons env st t p h1 hd info hA ans rest]
  by_cases ry : jsTrim (jsToLower ans) = "y" ∨ jsTrim (jsToLower ans) = "yes"
  · have ha : jsTrim (jsToLower ans) ≠ "a" := by
      rcases ry with h | h <;> rw [h] <;> decide
    have hdd : jsTrim (jsToLower ans) ≠ "d" := by
      rcases ry with h | h <;> rw [h] <;> decide
    have hi : jsTrim (jsToLower ans) ≠ "i" := by
      rcases ry with h | h <;> rw [h] <;> decide
    rw [if_neg ha, if_neg ha, if_neg hdd, if_neg hdd, if_neg hi, if_neg hi]
  · rw [if_neg ry, if_neg ry]

/-- Claim C5 witness: the token theorem applied to the input line " YES " on
a fresh state, which normalizes to `yes` and resolves as Allow. -/
theorem c5_witness :
    getUserPermission envA initialState "Bash" [("command", JsVal.str "ls")] [" YES "] =
      EvalResult.ok (Decision.allow [("command", JsVal.str "ls")])
        { autoAllow := false, allowedTools := ["Bash"], deniedTools := [] } := by
  rw [c5_prompt_token_semantics envA initialState "Bash" [("command", JsVal.str "ls")]
    " YES " [] rfl (by decide) (by decide) rfl]
  rfl

/-- The permanent per-tool denial message differs from the one-time denial
message (their lengths differ for every tool name). -/
theorem deny_messages_distinct (t : String) :
    "User denied all " ++ t ++ " requests" ≠ "User denied permission" := by
  intro h
  have hlen := congrArg String.length h
  rw [String.length_append, String.length_append] at hlen
  rw [show ("User denied all " : String).length = 16 from rfl,
    show (" requests" : String).length = 9 from rfl,
    show ("User denied permission" : String).length = 22 from rfl] at hlen
  omega

/-- The remembered-denial fast-path message also differs from the one-time
denial message. -/
theorem prev_denied_message_distinct :
    ("Tool previously denied by user" : String) ≠ "User denied permission" := by
  decide

/-- Claim C9 (confirmed): every Allow decision carries exactly the request's
parameters; every Deny decision carries either the one-time message
`User denied permission` (with the state unchanged) or a permanent per-tool
message (with the tool in the deny set), and the permanent messages are
distinct from the one-time message, so the reason identifies the kind of
denial. -/
theorem c9_decision_payloads (env : SysEnv) (st : PermState) (t : String) (p : Params) :
    ∀ (inputs : List String) (d : Decision) (st' : PermState),
      getUserPermission env st t p inputs = EvalResult.ok d st' →
      (∀ q, d = Decision.allow q → q = p) ∧
      (∀ m, d = Decision.deny m →
        (m = "User denied permission" ∧ st' = st) ∨
        ((m = "Tool previously denied by user" ∨ m = "User denied all " ++ t ++ " requests") ∧
          t ∈ st'.deniedTools)) ∧
      "User denied all " ++ t ++ " requests" ≠ "User denied permission" ∧
      ("Tool previously denied by user" : String) ≠ "User denied permission" := by
  intro inputs
  induction inputs with
  | nil =>
    intro d st' h
    by_cases h1 : st.autoAllow = true ∨ t ∈ st.allowedTools
    · rw [gup_fast_allow env st t p [] h1] at h
      cases h
      refine ⟨fun q hq => ?_, fun m hm => ?_, deny_messages_distinct t, prev_denied_message_distinct⟩
      · injection hq with h2
        exact h2.symm
      · exact absurd hm (by simp)
    · by_cases h2 : t ∈ st.deniedTools
      · rw [gup_fast_deny env st t p [] h1 h2] at h
        cases h
        refine ⟨fun q hq => ?_, fun m hm => ?_, deny_messages_distinct t, prev_denied_message_distinct⟩
        · exact absurd hq (by simp)
        · injection hm with h3
          exact Or.inr ⟨Or.inl h3.symm, h2⟩
      · cases hA : analyzeToolRequest env t p with
        | error e =>
          rw [gup_thrown env st t p [] h1 h2 e hA] at h
          exact absurd h (by simp)
        | ok info =>
          rw [gup_prompt_nil env st t p h1 h2 info hA] at h
          exact absurd h (by simp)
  | cons ans rest ih =>
    intro d st' h
    by_cases h1 : st.autoAllow = true ∨ t ∈ st.allowedTools
    · rw [gup_fast_allow env st t p (ans :: rest) h1] at h
      cases h
      refine ⟨fun q hq => ?_, fun m hm => ?_, deny_messages_distinct t, prev_denied_message_distinct⟩
      · injection hq with h2
        exact h2.symm
      · exact absurd hm (by simp)
    · by_cases h2 : t ∈ st.deniedTools
      · rw [gup_fast_deny env st t p (ans :: rest) h1 h2] at h
        cases h
        refine ⟨fun q hq => ?_, fun m hm => ?_, deny_messages_distinct t, prev_denied_message_distinct⟩
        · exact absurd hq (by simp)
        · injection hm with h3
          exact Or.inr ⟨Or.inl h3.symm, h2⟩
      · cases hA : analyzeToolRequest env t p with
        | error e =>
          rw [gup_thrown env st t p (ans :: rest) h1 h2 e hA] at h
          exact absurd h (by simp)
        | ok info =>
          rw [gup_prompt_cons env st t p h1 h2 info hA ans rest] at h
          by_cases ra : jsTrim (jsToLower ans) = "a"
          · rw [if_pos ra] at h
            cases h
            refine ⟨fun q hq => ?_, fun m hm => ?_, deny_messages_distinct t, prev_denied_message_distinct⟩
            · injection hq with h3
              exact h3.symm
            · exact absurd hm (by simp)
          · rw [if_neg ra] at h
            by_cases rd : jsTrim (jsToLower ans) = "d"
            · rw [if_pos rd] at h
              cases h
              refine ⟨fun q hq => ?_, fun m hm => ?_, deny_messages_distinct t, prev_denied_message_distinct⟩
              · exact absurd hq (by simp)
              · injection hm with h3
                exact Or.inr ⟨Or.inr h3.symm, mem_setAdd.mpr (Or.inr rfl)⟩
            · rw [if_neg rd] at h
              by_cases ri : jsTrim (jsToLower ans) = "i"
              · rw [if_pos ri] at h
                exact ih d st' h
              · rw [if_neg ri] at h
                by_cases ry : jsTrim (jsToLower ans) = "y" ∨ jsTrim (jsToLower ans) = "yes"
                · rw [if_pos ry] at h
                  cases h
                  refine ⟨fun q hq => ?_, fun m hm => ?_, deny_messages_distinct t, prev_denied_message_distinct⟩
                  · injection hq with h3
                    exact h3.symm
                  · exact absurd hm (by simp)
                · rw [if_neg ry] at h
                  cases h
                  refine ⟨fun q hq => ?_, fun m hm => ?_, deny_messages_distinct t, prev_denied_message_distinct⟩
                  · exact absurd hq (by simp)
                  · injection hm with h3
                    exact Or.inl ⟨h3.symm, rfl⟩

/-- Claim C9 witness: the payload theorem applied to a permanent denial of
`Write` on a fresh state. -/
theorem c9_witness :
    getUserPermission envA initialState "Write"
        [("file_path", JsVal.str "/tmp/a"), ("content", JsVal.str "x")] ["d"] =
      EvalResult.ok (Decision.deny "User denied all Write requests")
        { autoAllow := false, allowedTools := [], deniedTools := ["Write"] } ∧
    (("User denied all Write requests" = "User denied permission" ∧
        ({ autoAllow := false, allowedTools := [], deniedTools := ["Write"] } : PermState) =
          initialState) ∨
      (("User denied all Write requests" = "Tool previously denied by user" ∨
          "User denied all Write requests" = "User denied all " ++ "Write" ++ " requests") ∧
        "Write" ∈ ({ autoAllow := false, allowedTools := [], deniedTools := ["Write"] } : PermState).deniedTools)) := by
  refine ⟨by decide, ?_⟩
  exact (c9_decision_payloads envA initialState "Write"
    [("file_path", JsVal.str "/tmp/a"), ("content", JsVal.str "x")] ["d"]
    (Decision.deny "User denied all Write requests")
    { autoAllow := false, allowedTools := [], deniedTools := ["Write"] } (by decide)).2.1
    "User denied all Write requests" rfl

/-- Claim C10 (confirmed): once an evaluation of tool `t` is resolved by
operator input `y` (or `yes`), the tool enters the per-tool allow set, it
stays there across every further sequence of resolved evaluations, and every
subsequent evaluation of `t` — under any environment, any parameters, and
even with no operator input available — returns Allow via the fast path with
the state unchanged. -/
theorem c10_allow_remembered (env : SysEnv) (st : PermState) (t : String) (p : Params)
    (ans : String) (rest : List String) (st₁ : PermState)
    (hauto : st.autoAllow = false) (hal : t ∉ st.allowedTools) (hd : t ∉ st.deniedTools)
    (hyy : jsTrim (jsToLower ans) = "y" ∨ jsTrim (jsToLower ans) = "yes")
    (h : getUserPermission env st t p (ans :: rest) = EvalResult.ok (Decision.allow p) st₁) :
    t ∈ st₁.allowedTools ∧
    ∀ st₂, StepsTo st₁ st₂ →
      t ∈ st₂.allowedTools ∧
      ∀ (env₂ : SysEnv) (p₂ : Params) (inputs₂ : List String),
        getUserPermission env₂ st₂ t p₂ inputs₂ = EvalResult.ok (Decision.allow p₂) st₂ := by
  have h1 : ¬(st.autoAllow = true ∨ t ∈ st.allowedTools) := by
    rintro (hb | hm)
    · rw [hauto] at hb
      exact Bool.false_ne_true hb
    · exact hal hm
  cases hA : analyzeToolRequest env t p with
  | error e =>
    rw [gup_thrown env st t p (ans :: rest) h1 hd e hA] at h
    exact absurd h (by simp)
  | ok info =>
    have ha : jsTrim (jsToLower ans) ≠ "a" := by
      rcases hyy with h' | h' <;> rw [h'] <;> decide
    have hdd : jsTrim (jsToLower ans) ≠ "d" := by
      rcases hyy with h' | h' <;> rw [h'] <;> decide
    have hi : jsTrim (jsToLower ans) ≠ "i" := by
      rcases hyy with h' | h' <;> rw [h'] <;> decide
    rw [gup_prompt_cons env st t p h1 hd info hA ans rest,
      if_neg ha, if_neg hdd, if_neg hi, if_pos hyy] at h
    have hst : st₁ = recordAllowForever st t := by
      injection h with h2 h3
      exact h3.symm
    subst hst
    have hmem : t ∈ (recordAllowForever st t).allowedTools := mem_setAdd.mpr (Or.inr rfl)
    refine ⟨hmem, fun st₂ hsteps => ?_⟩
    have hmem2 : t ∈ st₂.allowedTools := stepsTo_preserves_allowed hsteps t hmem
    exact ⟨hmem2, fun env₂ p₂ inputs₂ => gup_fast_allow env₂ st₂ t p₂ inputs₂ (Or.inr hmem2)⟩

/-- Claim C10 witness: after resolving a fresh `Bash` request with `y`, a
later `Bash` request is allowed by the fast path with no operator input. -/
theorem c10_witness :
    "Bash" ∈ ({ autoAllow := false, allowedTools := ["Bash"], deniedTools := [] } : PermState).allowedTools ∧
    getUserPermission envA { autoAllow := false, allowedTools := ["Bash"], deniedTools := [] }
        "Bash" [] [] =
      EvalResult.ok (Decision.allow [])
        { autoAllow := false, allowedTools := ["Bash"], deniedTools := [] } := by
  have h := c10_allow_remembered envA initialState "Bash" [("command", JsVal.str "ls")] "y" []
    { autoAllow := false, allowedTools := ["Bash"], deniedTools := [] }
    rfl (by decide) (by decide) (Or.inl (by decide)) (by decide)
  exact ⟨h.1, (h.2 _ (StepsTo.refl _)).2 envA [] []⟩
